import Mathlib

/-!
Verification of the MERN testing-and-debugging application server slice:
the error-normalizing middleware, the auth gate, the post routes
(update, delete, like-toggle, comment), registration, and the validator
utilities, shallowly embedded from the JavaScript sources.
-/

namespace Mern

/-! ## JavaScript-value helpers

JS `a || b` treats `undefined` and the empty string (resp. `0`) as falsy. -/

/-- JS `a || b` for an optional string: `undefined` and `""` are falsy. -/
def jsOrStr (o : Option String) (d : String) : String :=
  match o with
  | none => d
  | some s => if s = "" then d else s

/-- JS `a || b` for an optional number: `undefined` and `0` are falsy. -/
def jsOrNat (o : Option Nat) (d : Nat) : Nat :=
  match o with
  | none => d
  | some n => if n = 0 then d else n

/-! ## Error objects and the error-handler middleware
(`server/src/middleware/errorHandler.js`)

An error object carries the properties the handler inspects: `name`,
`code`, `status`, `statusCode`, `message`, `stack`, and (for Mongoose
validation errors) the list `Object.values(err.errors).map(v => v.message)`. -/

structure JsError where
  name : Option String := none
  code : Option Int := none
  status : Option Nat := none
  statusCode : Option Nat := none
  message : Option String := none
  stack : Option String := none
  validationMessages : List String := []
deriving DecidableEq

/-- The sequence of pattern-match rewrites in `errorHandler`: the local
`error` starts as `{...err}` with `error.message = err.message` (so the
pair `(message, statusCode)` is initialized from `err`), then each `if`
block on the ORIGINAL `err` overwrites the whole pair. Later blocks
overwrite earlier ones, since the blocks are sequential `if`s, not an
`if`/`else` chain. -/
def errorPass (err : JsError) : Option String × Option Nat :=
  let e := (err.message, err.statusCode)
  let e := if err.name = some "CastError" then
      (some "Resource not found", some 404) else e
  let e := if err.code = some 11000 then
      (some "Duplicate field value entered", some 400) else e
  let e := if err.name = some "ValidationError" then
      (some (String.intercalate ", " err.validationMessages), some 400) else e
  let e := if err.name = some "JsonWebTokenError" then
      (some "Invalid token", some 401) else e
  let e := if err.name = some "TokenExpiredError" then
      (some "Token expired", some 401) else e
  let e := if err.status = some 429 then
      (some "Too many requests, please try again later", some 429) else e
  let e := if err.name = some "MongoNetworkError" ∨
       err.name = some "MongooseServerSelectionError" then
      (some "Database connection error", some 503) else e
  e

/-- The JSON body sent by `errorHandler`, together with the HTTP status
code passed to `res.status(...)`. The `stack` and `originalError` fields
are spread in only when `process.env.NODE_ENV === 'development'`. -/
structure ErrResponse where
  status : String
  message : String
  stack : Option String
  originalError : Option JsError
  httpStatus : Nat
deriving DecidableEq

/-- `errorHandler(err, req, res, next)` from
`server/src/middleware/errorHandler.js`, as a function of the error
object and the `NODE_ENV` environment string: the rewritten
`(message, statusCode)` pair feeds the response via
`error.message || 'Server Error'` and `error.statusCode || 500`. -/
def errorHandler (err : JsError) (env : String) : ErrResponse :=
  let e := errorPass err
  { status := "error"
    message := jsOrStr e.1 "Server Error"
    stack := if env = "development" then err.stack else none
    originalError := if env = "development" then some err else none
    httpStatus := jsOrNat e.2 500 }

/-- The precedence the code actually implements, written as a first-match
`if`/`else` chain over the patterns in REVERSE source order: because each
source block overwrites the local `error`, the last matching block
determines the response. -/
def errorPassLastMatch (err : JsError) : Option String × Option Nat :=
  if err.name = some "MongoNetworkError" ∨
     err.name = some "MongooseServerSelectionError" then
    (some "Database connection error", some 503)
  else if err.status = some 429 then
    (some "Too many requests, please try again later", some 429)
  else if err.name = some "TokenExpiredError" then
    (some "Token expired", some 401)
  else if err.name = some "JsonWebTokenError" then
    (some "Invalid token", some 401)
  else if err.name = some "ValidationError" then
    (some (String.intercalate ", " err.validationMessages), some 400)
  else if err.code = some 11000 then
    (some "Duplicate field value entered", some 400)
  else if err.name = some "CastError" then
    (some "Resource not found", some 404)
  else
    (err.message, err.statusCode)

/-! ## Logging pipeline (`server/src/utils/logger.js`)

Log levels: `ERROR: 0, WARN: 1, INFO: 2, DEBUG: 3`. The active level is
`INFO` in production and `DEBUG` otherwise; `_log` returns early when
`level > currentLevel`, else writes to the combined log file and, for
`ERROR` entries, also to `error.log`. -/

def logLevelError : Nat := 0

/-- `currentLevel` from the logger module, as a function of `NODE_ENV`. -/
def currentLevel (env : String) : Nat :=
  if env = "production" then 2 else 3

/-- Whether `logger._log` at the given level reaches `_writeToFile`
(it returns early exactly when `level > currentLevel`). -/
def logWritesToFile (env : String) (level : Nat) : Bool :=
  !(decide (level > currentLevel env))

/-- Whether `_writeToFile` appends the entry to the dedicated
`error.log` file (it does so exactly for level name `"ERROR"`). -/
def writesToErrorLogFile (levelName : String) : Bool :=
  levelName = "ERROR"

/-- The metadata object of the handler's opening
`logger.error('🚨 Error Occurred:', {error: err.message, stack: err.stack, ...})`
call: the parts that come from the error object itself. -/
structure ErrorLogEntry where
  message : String
  errMessage : Option String
  stack : Option String
deriving DecidableEq

/-- The log entry the error handler always emits first. -/
def handlerErrorLog (err : JsError) : ErrorLogEntry :=
  { message := "🚨 Error Occurred:"
    errMessage := err.message
    stack := err.stack }

/-! ## The error handler's effect trace

`errorHandler` performs, in order: one `logger.error` (whose metadata
carries `err.stack`), one `performanceLogger.logMemoryUsage()`, one
`logger.warn`/`logger.error` per matching pattern block, one
`logger.debug`, and exactly one `res.status(...).json(...)`. It contains
no assignment to a property of `err` (all rewriting targets the local
`error` copy) and no call back into the failed operation. -/

inductive Effect where
  | logError (tag : String) (stackLogged : Option String) : Effect
  | logMemory : Effect
  | logWarn (tag : String) : Effect
  | logDebug (tag : String) : Effect
  | respond (httpStatus : Nat) (body : ErrResponse) : Effect
  | mutateInput : Effect
  | retryOperation : Effect
deriving DecidableEq

/-- `true` exactly on `Effect.mutateInput`. -/
def Effect.isMutateInput : Effect → Bool
  | .mutateInput => true
  | _ => false

/-- `true` exactly on `Effect.retryOperation`. -/
def Effect.isRetry : Effect → Bool
  | .retryOperation => true
  | _ => false

/-- `true` exactly on `Effect.respond ..`. -/
def Effect.isRespond : Effect → Bool
  | .respond _ _ => true
  | _ => false

/-- The ordered list of side effects `errorHandler` performs, read off
the body of `server/src/middleware/errorHandler.js` line by line. -/
def errorHandlerEffects (err : JsError) (env : String) : List Effect :=
  [Effect.logError "🚨 Error Occurred:" err.stack, Effect.logMemory]
  ++ (if err.name = some "CastError" then [Effect.logWarn "Cast Error:"] else [])
  ++ (if err.code = some 11000 then [Effect.logWarn "Duplicate Key Error:"] else [])
  ++ (if err.name = some "ValidationError" then [Effect.logWarn "Validation Error:"] else [])
  ++ (if err.name = some "JsonWebTokenError" then [Effect.logWarn "JWT Error:"] else [])
  ++ (if err.name = some "TokenExpiredError" then [Effect.logWarn "JWT Error:"] else [])
  ++ (if err.status = some 429 then [Effect.logWarn "Rate Limit Exceeded:"] else [])
  ++ (if err.name = some "MongoNetworkError" ∨
        err.name = some "MongooseServerSelectionError" then
        [Effect.logError "Database Connection Error:" none] else [])
  ++ [Effect.logDebug "Error Response Sent:",
      Effect.respond (errorHandler err env).httpStatus (errorHandler err env)]

/-! ## The auth gate (`server/src/middleware/auth.js`)

Modelled from the spec: the middleware file itself is not in the
snapshot (only its unit and integration tests are). Per §4.1 of the
spec: no header → 401 "No token, authorization denied"; a header not in
`Bearer <token>` form, a token that fails verification (bad signature or
expired), or a token whose user no longer exists → 401 "Token is not
valid" in every case; on success the user record is loaded with the
password field excluded and the downstream handler runs. -/

/-- A persisted user record; `password` is the stored hash, `none` once
excluded by `.select('-password')`. -/
structure UserRec where
  userId : Nat
  username : String
  email : String
  password : Option String := none
deriving DecidableEq

/-- The outcome of the auth middleware: a short-circuit JSON rejection,
or `next()` with the resolved user attached to the request. -/
inductive AuthResult where
  | denied (httpStatus : Nat) (status message : String) : AuthResult
  | granted (user : UserRec) : AuthResult
deriving DecidableEq

/-- The `"Bearer "` prefix as characters. -/
def bearerChars : List Char := ['B', 'e', 'a', 'r', 'e', 'r', ' ']

/-- Extract the token from an `Authorization` header value: `some` of the
remainder when the value starts with `"Bearer "`, else `none`. -/
def bearerToken (header : List Char) : Option (List Char) :=
  if header.take 7 = bearerChars then some (header.drop 7) else none

/-- Modelled from the spec: the auth middleware
(`server/src/middleware/auth.js`, absent from the snapshot). `verify` is
the token service (`jwt.verify` against the server secret, `none` on an
invalid or expired token) and `findById` the credential store lookup. -/
def authGate (header : Option (List Char)) (verify : List Char → Option Nat)
    (findById : Nat → Option UserRec) : AuthResult :=
  match header with
  | none => AuthResult.denied 401 "error" "No token, authorization denied"
  | some h =>
    match bearerToken h with
    | none => AuthResult.denied 401 "error" "Token is not valid"
    | some tok =>
      match verify tok with
      | none => AuthResult.denied 401 "error" "Token is not valid"
      | some uid =>
        match findById uid with
        | none => AuthResult.denied 401 "error" "Token is not valid"
        | some u => AuthResult.granted { u with password := none }

/-! ## Posts and the post routes (`server/src/routes/posts.js`)

The embedded like list: the like handler pushes `{ user: req.user._id }`,
and identifiers are compared with `toString()` equality, modelled here as
`Nat` equality. -/

structure LikeEntry where
  user : Nat
deriving DecidableEq

structure CommentEntry where
  user : Nat
  content : String
deriving DecidableEq

structure Post where
  title : String
  content : String
  author : Nat
  tags : List String
  likes : List LikeEntry
  comments : List CommentEntry
  isPublished : Bool := true
deriving DecidableEq

/-- Modelled from the spec: the `likeCount` virtual of the Post model
(the model file is absent from the snapshot; per §3 the like count is
computed from the list length, as its unit tests also expect). -/
def Post.likeCount (p : Post) : Nat := p.likes.length

/-- The JSON payload of the like route's success response:
`{ liked, likeCount }`, alongside the saved post. -/
structure ToggleResult where
  post : Post
  liked : Bool
  likeCount : Nat
deriving DecidableEq

/-- The `POST /api/posts/:id/like` handler body after the post has been
found: look for an existing like by the caller; if present, filter out
every like whose `user` equals the caller's id and save ("unlike"); else
push `{ user }` and save ("like"). Both branches respond with the saved
post's `likeCount`. -/
def toggleLike (uid : Nat) (p : Post) : ToggleResult :=
  match p.likes.find? (fun l => l.user == uid) with
  | some _ =>
    let p2 := { p with likes := p.likes.filter (fun l => !(l.user == uid)) }
    { post := p2, liked := false, likeCount := p2.likeCount }
  | none =>
    let p2 := { p with likes := p.likes ++ [{ user := uid }] }
    { post := p2, liked := true, likeCount := p2.likeCount }

/-- A sequence of like-toggle operations, applied in order. -/
def applyToggles (ops : List Nat) (p : Post) : Post :=
  ops.foldl (fun q u => (toggleLike u q).post) p

/-- The like-list invariant: no user id occurs twice among the likes. -/
def likesUnique (p : Post) : Prop :=
  (p.likes.map LikeEntry.user).Nodup

instance (p : Post) : Decidable (likesUnique p) := by
  unfold likesUnique; infer_instance

/-- The request body of `PUT /api/posts/:id`: each field may be absent,
and JS truthiness guards the copy into `updateData` (`if (title) ...`),
so an empty string is not copied; an array — even an empty one — is
truthy and is copied whenever present. -/
structure UpdateBody where
  title : Option String := none
  content : Option String := none
  tags : Option (List String) := none
deriving DecidableEq

/-- One field of the `updateData` object: keep the old value unless the
body's value is truthy. -/
def updField (o : Option String) (old : String) : String :=
  match o with
  | none => old
  | some s => if s = "" then old else s

/-- The document produced by `findByIdAndUpdate(id, updateData)`: only
`title`, `content` and `tags` can appear in `updateData`, so every other
field keeps its stored value. -/
def applyUpdate (p : Post) (b : UpdateBody) : Post :=
  { p with
    title := updField b.title p.title
    content := updField b.content p.content
    tags := match b.tags with | none => p.tags | some ts => ts }

/-- A route response: HTTP status code plus the `{status, message}`
envelope. -/
structure RouteResponse where
  httpStatus : Nat
  status : String
  message : String
deriving DecidableEq

/-- `Post.findById` over the persisted collection, modelled as an
association list from ids to documents. -/
def dbFind (db : List (Nat × Post)) (id : Nat) : Option Post :=
  (db.find? (fun e => e.1 == id)).map Prod.snd

/-- Persist a replacement document under an id. -/
def dbSet (db : List (Nat × Post)) (id : Nat) (p : Post) : List (Nat × Post) :=
  db.map (fun e => if e.1 == id then (e.1, p) else e)

/-- Remove a document (`findByIdAndDelete`). -/
def dbDelete (db : List (Nat × Post)) (id : Nat) : List (Nat × Post) :=
  db.filter (fun e => !(e.1 == id))

/-- The `PUT /api/posts/:id` handler after validation: 404 when the post
is absent, 403 (persisting nothing) when the caller is not the author,
else persist `findByIdAndUpdate` and answer 200. -/
def updatePost (db : List (Nat × Post)) (id uid : Nat) (b : UpdateBody) :
    List (Nat × Post) × RouteResponse :=
  match dbFind db id with
  | none => (db, ⟨404, "error", "Post not found"⟩)
  | some p =>
    if p.author ≠ uid then
      (db, ⟨403, "error", "Not authorized to update this post"⟩)
    else
      (dbSet db id (applyUpdate p b), ⟨200, "success", "Post updated successfully"⟩)

/-- The `DELETE /api/posts/:id` handler: 404 when the post is absent,
403 (persisting nothing) when the caller is not the author, else
`findByIdAndDelete` and 200. -/
def deletePost (db : List (Nat × Post)) (id uid : Nat) :
    List (Nat × Post) × RouteResponse :=
  match dbFind db id with
  | none => (db, ⟨404, "error", "Post not found"⟩)
  | some p =>
    if p.author ≠ uid then
      (db, ⟨403, "error", "Not authorized to delete this post"⟩)
    else
      (dbDelete db id, ⟨200, "success", "Post deleted successfully"⟩)

/-! ## Registration (`server/src/routes/auth.js`)

Modelled from the spec: the auth routes file is absent from the snapshot
(only its integration tests are). Per §8, a registration whose email or
username is already present answers 400 "User already exists" and stores
nothing; otherwise the user is appended with a hashed password. -/

/-- Modelled from the spec: `POST /api/auth/register` (route file absent
from the snapshot). `hash` abstracts the bcrypt password hashing. -/
def registerUser (db : List UserRec) (username email password : String)
    (newId : Nat) (hash : String → String) : List UserRec × RouteResponse :=
  if db.any (fun u => u.email == email || u.username == username) then
    (db, ⟨400, "error", "User already exists"⟩)
  else
    (db ++ [{ userId := newId, username := username, email := email,
              password := some (hash password) }],
     ⟨201, "success", "User registered successfully"⟩)

/-! ## Validator utilities (`server/src/utils/validators.js`) -/

/-- The special-character class of `isStrongPassword`:
the regex set `!@#$%^&*(),.?":` followed by brace, brace, `|<>`. -/
def specialChars : List Char :=
  ['!', '@', '#', '$', '%', '^', '&', '*', '(', ')', ',', '.', '?', '\"',
   ':', Char.ofNat 123, Char.ofNat 125, '|', '<', '>']

/-- `validator.isStrongPassword`: length at least 8, and at least one
ASCII uppercase letter, lowercase letter, digit, and special character.
Strings are embedded as their character lists. -/
def isStrongPassword (password : List Char) : Bool :=
  if password.length < 8 then false
  else
    let hasUpperCase := password.any Char.isUpper
    let hasLowerCase := password.any Char.isLower
    let hasNumbers := password.any Char.isDigit
    let hasSpecialChar := password.any (fun c => specialChars.contains c)
    hasUpperCase && hasLowerCase && hasNumbers && hasSpecialChar

/-- Modelled from the spec: the User model's password rule (the model
file is absent from the snapshot; its unit tests expect the message
"Password must be at least 6 characters" for a 5-character password):
a minimum length of 6. -/
def meetsUserModelPasswordMin (password : List Char) : Bool :=
  decide (6 ≤ password.length)

/-! ## Theorems -/

/-- The two readings of the pattern chain agree: sequential overwriting
is first-match over the reversed pattern order. -/
lemma errorPass_eq_lastMatch (err : JsError) :
    errorPass err = errorPassLastMatch err := by
  unfold errorPass errorPassLastMatch
  split_ifs <;> simp_all

/-- C1 (counterexample): an error that matches both the `CastError`
pattern and the duplicate-key pattern is answered with the
duplicate-key response (400, "Duplicate field value entered"), not the
earlier `CastError` response (404, "Resource not found") the claim's
precedence predicts. -/
theorem c1_claim_counterexample :
    (errorHandler { name := some "CastError", code := some 11000 } "test").httpStatus = 400 ∧
    (errorHandler { name := some "CastError", code := some 11000 } "test").message =
      "Duplicate field value entered" ∧
    (errorHandler { name := some "CastError", code := some 11000 } "test").httpStatus ≠ 404 := by
  refine ⟨rfl, rfl, by decide⟩

/-- C1 (amended): the error normalizer's response is
`{status := "error", message, ...}` with status code and message given
by the fixed pattern list of the claim, except that when an error
matches more than one pattern the LATER pattern in the source order
(the first match of `errorPassLastMatch`, which checks the patterns in
reverse) determines the response; an unmatched error keeps its own
status code if present and nonzero (else 500) and its own message if
present and nonempty (else "Server Error"). -/
theorem c1_error_normalizer_precedence (err : JsError) (env : String) :
    errorHandler err env =
      { status := "error"
        message := jsOrStr (errorPassLastMatch err).1 "Server Error"
        stack := if env = "development" then err.stack else none
        originalError := if env = "development" then some err else none
        httpStatus := jsOrNat (errorPassLastMatch err).2 500 } := by
  unfold errorHandler
  rw [errorPass_eq_lastMatch]

/-- C6 (counterexample): in the `test` environment — which is not
production — two errors differing only in their stack produce IDENTICAL
responses, because the handler includes the stack only when `NODE_ENV`
is exactly `development`. -/
theorem c6_claim_counterexample :
    errorHandler { stack := some "stackA" } "test" =
      errorHandler { stack := some "stackB" } "test" ∧
    "test" ≠ "production" := by
  refine ⟨rfl, by decide⟩

/-- C6 (amended): the response carries the error's stack exactly when
the environment is `development` (so never in production, but also in no
other non-development environment); in every non-development environment
the response is independent of the stack; and the stack always reaches
the durable log: the handler's opening error-level log entry carries it,
error-level entries pass the level filter in every environment, and
`_writeToFile` routes `ERROR` entries to the error log file. -/
theorem c6_stack_exposure (err : JsError) (env : String) (s : Option String) :
    ((errorHandler err env).stack = if env = "development" then err.stack else none) ∧
    (env ≠ "development" → errorHandler { err with stack := s } env = errorHandler err env) ∧
    logWritesToFile env logLevelError = true ∧
    (handlerErrorLog err).stack = err.stack ∧
    writesToErrorLogFile "ERROR" = true := by
  refine ⟨rfl, ?_, ?_, rfl, by decide⟩
  · intro h
    unfold errorHandler
    simp only [if_neg h]
    rfl
  · have h2 : ¬ (logLevelError > currentLevel env) := by
      unfold logLevelError currentLevel
      split_ifs <;> omega
    simp [logWritesToFile, h2]

/-- C8: the error normalizer's effect trace contains no mutation of the
incoming error object and no retry of the failed operation, and it
responds exactly once, with the response being the pure function
`errorHandler` of the error and the environment. -/
theorem c8_error_handler_purity (err : JsError) (env : String) :
    ((errorHandlerEffects err env).all
        (fun e => !(e.isMutateInput) && !(e.isRetry)) = true) ∧
    ((errorHandlerEffects err env).countP Effect.isRespond = 1) ∧
    Effect.respond (errorHandler err env).httpStatus (errorHandler err env)
      ∈ errorHandlerEffects err env := by
  refine ⟨?_, ?_, ?_⟩
  · unfold errorHandlerEffects
    split_ifs <;> rfl
  · unfold errorHandlerEffects
    split_ifs <;> rfl
  · unfold errorHandlerEffects
    simp

/-- C2: the auth gate's complete case analysis (modelled from the
spec, §4.1): no header → 401 "No token, authorization denied" and the
handler never runs; a non-`Bearer` header, a token failing verification
(bad signature or expired alike), or a verified token whose user no
longer exists → 401 with the identical "Token is not valid"; a verified
token with an existing user → the handler runs with the user attached,
its password field excluded. -/
theorem c2_auth_gate_cases (header : Option (List Char))
    (verify : List Char → Option Nat) (findById : Nat → Option UserRec) :
    (header = none →
      authGate header verify findById =
        AuthResult.denied 401 "error" "No token, authorization denied") ∧
    (∀ h, header = some h → bearerToken h = none →
      authGate header verify findById =
        AuthResult.denied 401 "error" "Token is not valid") ∧
    (∀ h tok, header = some h → bearerToken h = some tok → verify tok = none →
      authGate header verify findById =
        AuthResult.denied 401 "error" "Token is not valid") ∧
    (∀ h tok uid, header = some h → bearerToken h = some tok →
      verify tok = some uid → findById uid = none →
      authGate header verify findById =
        AuthResult.denied 401 "error" "Token is not valid") ∧
    (∀ h tok uid u, header = some h → bearerToken h = some tok →
      verify tok = some uid → findById uid = some u →
      authGate header verify findById = AuthResult.granted { u with password := none } ∧
        ({ u with password := none } : UserRec).password = none) := by
  refine ⟨?_, ?_, ?_, ?_, ?_⟩
  · intro h; subst h; rfl
  · intro h hh hb; subst hh; simp [authGate, hb]
  · intro h tok hh hb hv; subst hh; simp [authGate, hb, hv]
  · intro h tok uid hh hb hv hf; subst hh; simp [authGate, hb, hv, hf]
  · intro h tok uid u hh hb hv hf; subst hh
    exact ⟨by simp [authGate, hb, hv, hf], rfl⟩

/-- C2 (witness): concrete instantiations of all five cases. -/
theorem c2_auth_gate_cases_witness :
    authGate none (fun _ => some 1) (fun _ => some ⟨1, "alice", "a@x.io", some "h"⟩) =
      AuthResult.denied 401 "error" "No token, authorization denied" ∧
    authGate (some ['x']) (fun _ => some 1) (fun _ => none) =
      AuthResult.denied 401 "error" "Token is not valid" ∧
    authGate (some (bearerChars ++ ['t'])) (fun _ => none) (fun _ => none) =
      AuthResult.denied 401 "error" "Token is not valid" ∧
    authGate (some (bearerChars ++ ['t'])) (fun _ => some 1) (fun _ => none) =
      AuthResult.denied 401 "error" "Token is not valid" ∧
    authGate (some (bearerChars ++ ['t'])) (fun _ => some 1)
        (fun _ => some ⟨1, "alice", "a@x.io", some "h"⟩) =
      AuthResult.granted ⟨1, "alice", "a@x.io", none⟩ := by
  refine ⟨?_, ?_, ?_, ?_, ?_⟩
  · exact (c2_auth_gate_cases none (fun _ => some 1)
      (fun _ => some ⟨1, "alice", "a@x.io", some "h"⟩)).1 rfl
  · exact (c2_auth_gate_cases (some ['x']) (fun _ => some 1) (fun _ => none)).2.1
      ['x'] rfl (by decide)
  · exact (c2_auth_gate_cases (some (bearerChars ++ ['t'])) (fun _ => none)
      (fun _ => none)).2.2.1 (bearerChars ++ ['t']) ['t'] rfl (by decide) rfl
  · exact (c2_auth_gate_cases (some (bearerChars ++ ['t'])) (fun _ => some 1)
      (fun _ => none)).2.2.2.1 (bearerChars ++ ['t']) ['t'] 1 rfl (by decide) rfl rfl
  · exact ((c2_auth_gate_cases (some (bearerChars ++ ['t'])) (fun _ => some 1)
      (fun _ => some ⟨1, "alice", "a@x.io", some "h"⟩)).2.2.2.2 (bearerChars ++ ['t'])
      ['t'] 1 ⟨1, "alice", "a@x.io", some "h"⟩ rfl (by decide) rfl rfl).1

/-- A like entry is determined by its user id. -/
lemma LikeEntry.eq_of_user_eq {a : LikeEntry} {u : Nat} (h : a.user = u) :
    a = ⟨u⟩ := by
  cases a; simpa using h

/-- Under the uniqueness invariant, the likes matching a user present in
the list are exactly one copy of that user's entry. -/
lemma filter_user_eq_single {likes : List LikeEntry} {u : Nat}
    (hnd : (likes.map LikeEntry.user).Nodup)
    (hmem : ∃ l ∈ likes, l.user = u) :
    likes.filter (fun l => l.user == u) = [⟨u⟩] := by
  induction likes with
  | nil => simp at hmem
  | cons a t ih =>
    simp only [List.map_cons, List.nodup_cons] at hnd
    by_cases ha : a.user = u
    · have haeq : a = (⟨u⟩ : LikeEntry) := LikeEntry.eq_of_user_eq ha
      have htnone : t.filter (fun l => l.user == u) = [] := by
        rw [List.filter_eq_nil_iff]
        intro x hx
        simp only [beq_iff_eq]
        intro hxu
        exact hnd.1 (by rw [ha, ← hxu]; exact List.mem_map_of_mem LikeEntry.user hx)
      simp [List.filter_cons, ha, htnone, haeq]
    · obtain ⟨l, hl, hlu⟩ := hmem
      rcases List.mem_cons.mp hl with rfl | hlt
      · exact absurd hlu ha
      · have : t.filter (fun l => l.user == u) = [⟨u⟩] :=
          ih hnd.2 ⟨l, hlt, hlu⟩
        simp [List.filter_cons, ha, this]

/-- The likes surviving an unlike still satisfy the uniqueness
invariant, and adding a fresh user keeps it as well. -/
lemma toggle_preserves_unique (u : Nat) (p : Post) (h : likesUnique p) :
    likesUnique (toggleLike u p).post := by
  unfold toggleLike
  cases hfind : p.likes.find? (fun l => l.user == u) with
  | some a =>
    unfold likesUnique at h ⊢
    exact List.Nodup.sublist ((List.filter_sublist p.likes).map LikeEntry.user) h
  | none =>
    unfold likesUnique at h ⊢
    rw [List.find?_eq_none] at hfind
    simp only [List.map_append, List.map_cons, List.map_nil, List.nodup_append]
    refine ⟨h, List.nodup_singleton u, ?_⟩
    intro x hx hx1
    simp only [List.mem_singleton] at hx1
    subst hx1
    obtain ⟨l, hl, hlu⟩ := List.mem_map.mp hx
    exact hfind l hl (by simp [hlu])

/-- C4: after any sequence of like toggles, a like list that starts with
at most one entry per user still has at most one entry per user;
moreover a single toggle appends an entry only when no entry for that
user is present, and the removal branch deletes every entry for that
user. -/
theorem c4_like_uniqueness_invariant (ops : List Nat) (u : Nat) (p : Post) :
    (likesUnique p → likesUnique (applyToggles ops p)) ∧
    (p.likes.find? (fun l => l.user == u) = none →
      (toggleLike u p).post.likes = p.likes ++ [⟨u⟩]) ∧
    (p.likes.find? (fun l => l.user == u) ≠ none →
      ((toggleLike u p).post.likes.countP (fun l => l.user == u) = 0 ∧
       (toggleLike u p).post.likes = p.likes.filter (fun l => !(l.user == u)))) := by
  refine ⟨?_, ?_, ?_⟩
  · intro h
    induction ops generalizing p with
    | nil => exact h
    | cons o t ih =>
      have : applyToggles (o :: t) p = applyToggles t (toggleLike o p).post := rfl
      rw [this]
      exact ih _ (toggle_preserves_unique o p h)
  · intro hfind
    simp [toggleLike, hfind]
  · intro hfind
    cases hf : p.likes.find? (fun l => l.user == u) with
    | none => exact absurd hf hfind
    | some a =>
      constructor
      · simp only [toggleLike, hf]
        rw [List.countP_eq_zero]
        intro l hl
        have := (List.mem_filter.mp hl).2
        simpa using this
      · simp [toggleLike, hf]

/-- C4 (witness): the invariant holds after the toggle sequence
`[1, 2, 1]` on a post liked by user 5, user 3's toggle appends, and
user 5's toggle removes every entry of user 5. -/
theorem c4_like_uniqueness_invariant_witness :
    likesUnique (applyToggles [1, 2, 1]
      (⟨"t", "c", 9, [], [⟨5⟩], [], true⟩ : Post)) ∧
    (toggleLike 3 (⟨"t", "c", 9, [], [⟨5⟩], [], true⟩ : Post)).post.likes =
      [⟨5⟩] ++ [⟨3⟩] ∧
    (toggleLike 5 (⟨"t", "c", 9, [], [⟨5⟩], [], true⟩ : Post)).post.likes.countP
      (fun l => l.user == 5) = 0 := by
  refine ⟨(c4_like_uniqueness_invariant [1, 2, 1] 0 _).1 (by decide),
    (c4_like_uniqueness_invariant [] 3 _).2.1 (by decide),
    ((c4_like_uniqueness_invariant [] 5 _).2.2 (by decide)).1⟩

/-- Toggling a user who has not liked the post, twice, restores the post
exactly: the appended entry is found by the second toggle and filtered
back out, leaving the original list. -/
lemma double_toggle_eq_of_not_liked (u : Nat) (p : Post)
    (hf : p.likes.find? (fun l => l.user == u) = none) :
    (toggleLike u (toggleLike u p).post).post = p := by
  have hall := List.find?_eq_none.mp hf
  have h2 : (p.likes ++ [(⟨u⟩ : LikeEntry)]).find? (fun l => l.user == u) =
      some ⟨u⟩ := by
    rw [List.find?_append, hf]
    simp
  have h3 : (p.likes ++ [(⟨u⟩ : LikeEntry)]).filter (fun l => !(l.user == u)) =
      p.likes := by
    rw [List.filter_append]
    have hright : ([(⟨u⟩ : LikeEntry)]).filter (fun l => !(l.user == u)) = [] := by
      simp
    have hleft : p.likes.filter (fun l => !(l.user == u)) = p.likes := by
      rw [List.filter_eq_self]
      intro a ha
      simpa using hall a ha
    rw [hright, hleft, List.append_nil]
  simp only [toggleLike, hf, h2, h3]

/-- C3 (counterexample): on a post whose like list is `[user 1, user 2]`,
toggling user 1's like twice yields the like list `[user 2, user 1]`,
not the original `[user 1, user 2]`: the double toggle moves the entry
to the end of the list instead of restoring the original list. -/
theorem c3_claim_counterexample :
    ((toggleLike 1 (toggleLike 1
        (⟨"t", "c", 7, [], [⟨1⟩, ⟨2⟩], [], true⟩ : Post)).post).post).likes =
      [⟨2⟩, ⟨1⟩] ∧
    [(⟨2⟩ : LikeEntry), ⟨1⟩] ≠ [(⟨1⟩ : LikeEntry), ⟨2⟩] := by
  refine ⟨rfl, by decide⟩

/-- C3 (amended): `likeCount` equals the length of the like list, each
toggle answers with the updated count, a single toggle either filters
the user's entries out or appends one, and toggling the same user twice
restores the like list UP TO ORDER (a permutation of the original,
given the one-entry-per-user invariant) — exactly the original list when
the user had not already liked the post. -/
theorem c3_like_toggle_roundtrip (u : Nat) (p : Post) :
    p.likeCount = p.likes.length ∧
    (toggleLike u p).likeCount = (toggleLike u p).post.likes.length ∧
    ((toggleLike u p).post.likes = p.likes.filter (fun l => !(l.user == u)) ∨
     (toggleLike u p).post.likes = p.likes ++ [⟨u⟩]) ∧
    (likesUnique p →
      ((toggleLike u (toggleLike u p).post).post.likes).Perm p.likes) ∧
    (p.likes.find? (fun l => l.user == u) = none →
      (toggleLike u (toggleLike u p).post).post = p) := by
  refine ⟨rfl, ?_, ?_, ?_, double_toggle_eq_of_not_liked u p⟩
  · unfold toggleLike
    cases hf : p.likes.find? (fun l => l.user == u) <;> rfl
  · unfold toggleLike
    cases hf : p.likes.find? (fun l => l.user == u) with
    | none => exact Or.inr rfl
    | some a => exact Or.inl rfl
  · intro hu
    cases hf : p.likes.find? (fun l => l.user == u) with
    | none =>
      rw [double_toggle_eq_of_not_liked u p hf]
    | some a =>
      have h2 : (p.likes.filter (fun l => !(l.user == u))).find?
          (fun l => l.user == u) = none := by
        rw [List.find?_eq_none]
        intro x hx
        have := (List.mem_filter.mp hx).2
        simpa using this
      have hmem : ∃ l ∈ p.likes, l.user = u := by
        refine ⟨a, List.mem_of_find?_eq_some hf, ?_⟩
        have := List.find?_some hf
        simpa using this
      have hsingle := filter_user_eq_single hu hmem
      simp only [toggleLike, hf, h2]
      rw [← hsingle]
      exact List.Perm.trans List.perm_append_comm
        (List.filter_append_perm (fun l => l.user == u) p.likes)

/-- C3 (witness): concrete double-toggle round trips — user 1 on a
post already liked by users 1 and 2 (a permutation), and user 3 on the
same post (exact restoration). -/
theorem c3_like_toggle_roundtrip_witness :
    ((toggleLike 1 (toggleLike 1
        (⟨"t", "c", 7, [], [⟨1⟩, ⟨2⟩], [], true⟩ : Post)).post).post).likes.Perm
      [⟨1⟩, ⟨2⟩] ∧
    (toggleLike 3 (toggleLike 3
        (⟨"t", "c", 7, [], [⟨1⟩, ⟨2⟩], [], true⟩ : Post)).post).post =
      (⟨"t", "c", 7, [], [⟨1⟩, ⟨2⟩], [], true⟩ : Post) := by
  refine ⟨(c3_like_toggle_roundtrip 1
      (⟨"t", "c", 7, [], [⟨1⟩, ⟨2⟩], [], true⟩ : Post)).2.2.2.1 (by decide),
    (c3_like_toggle_roundtrip 3
      (⟨"t", "c", 7, [], [⟨1⟩, ⟨2⟩], [], true⟩ : Post)).2.2.2.2 (by decide)⟩

/-- C5: on update and delete alike: a missing post answers 404
"Post not found" with the store untouched; a caller other than the
author answers 403 with the resource-specific message and the store
untouched (no mutation is persisted); the author's own request persists
the mutation. -/
theorem c5_ownership_checks (db : List (Nat × Post)) (id uid : Nat)
    (b : UpdateBody) :
    (dbFind db id = none →
      updatePost db id uid b = (db, ⟨404, "error", "Post not found"⟩) ∧
      deletePost db id uid = (db, ⟨404, "error", "Post not found"⟩)) ∧
    (∀ p, dbFind db id = some p → p.author ≠ uid →
      updatePost db id uid b =
        (db, ⟨403, "error", "Not authorized to update this post"⟩) ∧
      deletePost db id uid =
        (db, ⟨403, "error", "Not authorized to delete this post"⟩)) ∧
    (∀ p, dbFind db id = some p → p.author = uid →
      updatePost db id uid b =
        (dbSet db id (applyUpdate p b),
         ⟨200, "success", "Post updated successfully"⟩) ∧
      deletePost db id uid =
        (dbDelete db id, ⟨200, "success", "Post deleted successfully"⟩)) := by
  refine ⟨?_, ?_, ?_⟩
  · intro h
    exact ⟨by simp [updatePost, h], by simp [deletePost, h]⟩
  · intro p hp hne
    exact ⟨by simp [updatePost, hp, hne], by simp [deletePost, hp, hne]⟩
  · intro p hp heq
    exact ⟨by simp [updatePost, hp, heq], by simp [deletePost, hp, heq]⟩

/-- C5 (witness): the three cases at a concrete one-post store (post 1
authored by user 9): a lookup miss, a non-author caller, and the
author. -/
theorem c5_ownership_checks_witness :
    updatePost [(1, ⟨"t", "c", 9, [], [], [], true⟩)] 2 9 ⟨none, none, none⟩ =
      ([(1, ⟨"t", "c", 9, [], [], [], true⟩)], ⟨404, "error", "Post not found"⟩) ∧
    deletePost [(1, ⟨"t", "c", 9, [], [], [], true⟩)] 1 4 =
      ([(1, ⟨"t", "c", 9, [], [], [], true⟩)],
       ⟨403, "error", "Not authorized to delete this post"⟩) ∧
    deletePost [(1, ⟨"t", "c", 9, [], [], [], true⟩)] 1 9 =
      ([], ⟨200, "success", "Post deleted successfully"⟩) := by
  refine ⟨((c5_ownership_checks [(1, ⟨"t", "c", 9, [], [], [], true⟩)] 2 9
      ⟨none, none, none⟩).1 (by decide)).1, ?_, ?_⟩
  · exact ((c5_ownership_checks [(1, ⟨"t", "c", 9, [], [], [], true⟩)] 1 4
      ⟨none, none, none⟩).2.1 ⟨"t", "c", 9, [], [], [], true⟩ (by decide)
      (by decide)).2
  · exact ((c5_ownership_checks [(1, ⟨"t", "c", 9, [], [], [], true⟩)] 1 9
      ⟨none, none, none⟩).2.2 ⟨"t", "c", 9, [], [], [], true⟩ (by decide)
      (by decide)).2

/-- C7: a post update can change only `title`, `content` and `tags`:
the persisted document keeps the stored `author`, `likes`, `comments`
and `isPublished` values for every request body, because `updateData`
is built from those three fields alone. -/
theorem c7_update_frame (p : Post) (b : UpdateBody) :
    (applyUpdate p b).author = p.author ∧
    (applyUpdate p b).likes = p.likes ∧
    (applyUpdate p b).comments = p.comments ∧
    (applyUpdate p b).isPublished = p.isPublished := by
  exact ⟨rfl, rfl, rfl, rfl⟩

/-- C9: when some stored user already has the submitted email or the
submitted username, registration answers 400 with the error envelope and
the message "User already exists", and the user store is unchanged — no
record is created. (Modelled from the spec; the auth routes file is
absent from the snapshot.) -/
theorem c9_duplicate_registration (db : List UserRec)
    (username email password : String) (newId : Nat) (hash : String → String)
    (hdup : db.any (fun u => u.email == email || u.username == username) = true) :
    registerUser db username email password newId hash =
      (db, ⟨400, "error", "User already exists"⟩) := by
  simp [registerUser, hdup]

/-- C9 (witness): re-registering the stored email `a@x.io` under a fresh
username is refused and stores nothing. -/
theorem c9_duplicate_registration_witness :
    registerUser [⟨1, "alice", "a@x.io", some "h"⟩] "bob" "a@x.io" "pw" 2 id =
      ([⟨1, "alice", "a@x.io", some "h"⟩], ⟨400, "error", "User already exists"⟩) := by
  exact c9_duplicate_registration [⟨1, "alice", "a@x.io", some "h"⟩]
    "bob" "a@x.io" "pw" 2 id (by decide)

/-- C10: `isStrongPassword` accepts exactly the passwords of length at
least 8 containing an ASCII uppercase letter, a lowercase letter, a
digit, and a character from its special set; every accepted password
also clears the User model's 6-character minimum, while `"abcdef"`
clears the minimum but is rejected — a strictly stronger requirement. -/
theorem c10_strong_password (pw : List Char) :
    (isStrongPassword pw = true ↔
      (8 ≤ pw.length ∧ (∃ c ∈ pw, c.isUpper = true) ∧
       (∃ c ∈ pw, c.isLower = true) ∧ (∃ c ∈ pw, c.isDigit = true) ∧
       (∃ c ∈ pw, c ∈ specialChars))) ∧
    (isStrongPassword pw = true → meetsUserModelPasswordMin pw = true) ∧
    (meetsUserModelPasswordMin ['a', 'b', 'c', 'd', 'e', 'f'] = true ∧
     isStrongPassword ['a', 'b', 'c', 'd', 'e', 'f'] = false) := by
  refine ⟨?_, ?_, by decide, by decide⟩
  · unfold isStrongPassword
    by_cases h : pw.length < 8
    · rw [if_pos h]
      constructor
      · intro hfalse; exact absurd hfalse (by simp)
      · rintro ⟨hlen, -⟩; omega
    · rw [if_neg h]
      simp only [Bool.and_eq_true, List.any_eq_true]
      constructor
      · rintro ⟨⟨⟨h1, h2⟩, h3⟩, h4⟩
        refine ⟨by omega, h1, h2, h3, ?_⟩
        obtain ⟨c, hc, hcs⟩ := h4
        exact ⟨c, hc, by simpa using hcs⟩
      · rintro ⟨hlen, h1, h2, h3, h4⟩
        refine ⟨⟨⟨h1, h2⟩, h3⟩, ?_⟩
        obtain ⟨c, hc, hcs⟩ := h4
        exact ⟨c, hc, by simpa using hcs⟩
  · intro hs
    unfold isStrongPassword at hs
    by_cases h : pw.length < 8
    · rw [if_pos h] at hs; exact absurd hs (by simp)
    · unfold meetsUserModelPasswordMin
      simp only [decide_eq_true_eq]
      omega

/-- C6 (witness): in production the stack field is absent, changing the
stack leaves the response unchanged, and the error-level log entry is
still written with the stack. -/
theorem c6_stack_exposure_witness :
    (errorHandler { stack := some "s" } "production").stack = none ∧
    errorHandler { stack := some "other" } "production" =
      errorHandler ({ stack := some "s" } : JsError) "production" ∧
    logWritesToFile "production" logLevelError = true ∧
    (handlerErrorLog { stack := some "s" }).stack = some "s" := by
  have h := c6_stack_exposure { stack := some "s" } "production" (some "other")
  exact ⟨h.1.trans (by decide), h.2.1 (by decide), h.2.2.1, h.2.2.2.1⟩

/-- C10 (witness): the concrete password `Abcdef1!` is accepted by
`isStrongPassword` and clears the User model's 6-character minimum. -/
theorem c10_strong_password_witness :
    isStrongPassword ['A', 'b', 'c', 'd', 'e', 'f', '1', '!'] = true ∧
    meetsUserModelPasswordMin ['A', 'b', 'c', 'd', 'e', 'f', '1', '!'] = true := by
  refine ⟨by decide, ?_⟩
  exact (c10_strong_password ['A', 'b', 'c', 'd', 'e', 'f', '1', '!']).2.1 (by decide)

end Mern
